import Mathlib

/-!
Verification of the ROI calculator core in `src/pages/index.tsx`
(`computeScenario` and its constant table).

JavaScript numbers are modelled by `JSNum`: an exact rational together with
the three non-finite IEEE-754 values `inf`, `ninf` and `nan`.  Arithmetic on
finite values is exact rational arithmetic (rounding of binary doubles is
abstracted away; no claim in scope depends on it), while the propagation of
`Infinity` and `NaN` through `+`, `-`, `*`, `/`, `Math.round` and the
comparison operators follows the JavaScript semantics, which is exactly what
the division-by-zero behaviour of the calculator depends on.  The model has
no signed zero; no claim in scope distinguishes `0` from `-0`.

Inputs (`CalculatorState`) carry plain rationals: the spec's error-handling
section states the core assumes all numeric input fields are finite real
numbers, and every claim quantifies over finite numeric inputs.
-/

/-- Model of a JavaScript number: an exact finite rational, `Infinity`,
`-Infinity`, or `NaN`. -/
inductive JSNum where
  | fin (q : ℚ)
  | inf
  | ninf
  | nan
deriving DecidableEq

namespace JSNum

/-- JavaScript addition. -/
def add : JSNum → JSNum → JSNum
  | nan, _ => nan
  | _, nan => nan
  | fin a, fin b => fin (a + b)
  | fin _, inf => inf
  | fin _, ninf => ninf
  | inf, fin _ => inf
  | inf, inf => inf
  | inf, ninf => nan
  | ninf, fin _ => ninf
  | ninf, ninf => ninf
  | ninf, inf => nan

/-- JavaScript negation. -/
def neg : JSNum → JSNum
  | fin a => fin (-a)
  | inf => ninf
  | ninf => inf
  | nan => nan

/-- JavaScript subtraction (`x - y` behaves as `x + (-y)`). -/
def sub (x y : JSNum) : JSNum := add x (neg y)

/-- JavaScript multiplication (`Infinity * 0` is `NaN`). -/
def mul : JSNum → JSNum → JSNum
  | nan, _ => nan
  | _, nan => nan
  | fin a, fin b => fin (a * b)
  | fin a, inf => if 0 < a then inf else if a < 0 then ninf else nan
  | fin a, ninf => if 0 < a then ninf else if a < 0 then inf else nan
  | inf, fin b => if 0 < b then inf else if b < 0 then ninf else nan
  | ninf, fin b => if 0 < b then ninf else if b < 0 then inf else nan
  | inf, inf => inf
  | inf, ninf => ninf
  | ninf, inf => ninf
  | ninf, ninf => inf

/-- JavaScript division: a nonzero finite value divided by zero is signed
infinity, `0 / 0` is `NaN`, infinities divided by each other are `NaN`. -/
def div : JSNum → JSNum → JSNum
  | nan, _ => nan
  | _, nan => nan
  | fin a, fin b =>
      if b = 0 then (if 0 < a then inf else if a < 0 then ninf else nan)
      else fin (a / b)
  | fin _, inf => fin 0
  | fin _, ninf => fin 0
  | inf, fin b => if b < 0 then ninf else inf
  | ninf, fin b => if b < 0 then inf else ninf
  | inf, inf => nan
  | inf, ninf => nan
  | ninf, inf => nan
  | ninf, ninf => nan

/-- JavaScript `Math.round`: half-up rounding toward positive infinity on
finite values, identity on `Infinity`, `-Infinity` and `NaN`. -/
def round : JSNum → JSNum
  | fin a => fin ((⌊a + 1/2⌋ : ℤ) : ℚ)
  | inf => inf
  | ninf => ninf
  | nan => nan

/-- JavaScript strict equality `===` restricted to numbers: `NaN` is equal
to nothing, including itself. -/
def strictEq : JSNum → JSNum → Bool
  | nan, _ => false
  | _, nan => false
  | fin a, fin b => decide (a = b)
  | inf, inf => true
  | ninf, ninf => true
  | _, _ => false

/-- JavaScript `<`: any comparison involving `NaN` is false. -/
def jsLt : JSNum → JSNum → Bool
  | nan, _ => false
  | _, nan => false
  | fin a, fin b => decide (a < b)
  | fin _, inf => true
  | fin _, ninf => false
  | inf, _ => false
  | ninf, ninf => false
  | ninf, _ => true

/-- JavaScript `<=`: any comparison involving `NaN` is false. -/
def jsLe : JSNum → JSNum → Bool
  | nan, _ => false
  | _, nan => false
  | fin a, fin b => decide (a ≤ b)
  | fin _, inf => true
  | fin _, ninf => false
  | inf, inf => true
  | inf, _ => false
  | ninf, _ => true

/-- JavaScript `>`. -/
def jsGt (x y : JSNum) : Bool := jsLt y x

/-- JavaScript `>=`. -/
def jsGe (x y : JSNum) : Bool := jsLe y x

instance : Add JSNum := ⟨JSNum.add⟩
instance : Neg JSNum := ⟨JSNum.neg⟩
instance : Sub JSNum := ⟨JSNum.sub⟩
instance : Mul JSNum := ⟨JSNum.mul⟩
instance : Div JSNum := ⟨JSNum.div⟩

end JSNum

/-- One row of the health-event table (`HealthEventInput` in the source);
`count` and `costPerEvent` are the two numeric knobs the computation reads. -/
structure HealthEventInput where
  name : String
  key : String
  count : ℚ
  costPerEvent : ℚ
deriving DecidableEq

/-- The calculator's input snapshot (`CalculatorState` in the source). -/
structure CalculatorState where
  milkingCows : ℚ
  freshPerYear : ℚ
  freshOverride : Bool
  replacementCost : ℚ
  salvageValue : ℚ
  milkPrice : ℚ
  lbMilkPerLbDM : ℚ
  dmCost : ℚ
  deathEvents : ℚ
  soldEvents : ℚ
  healthEvents : List HealthEventInput
deriving DecidableEq

/-- The closed scenario enum (`EfficacyScenario` in the source). -/
inductive EfficacyScenario where
  | conservative
  | base
  | optimistic
deriving DecidableEq

/-- Output record of one scenario computation (`ScenarioResult` in the
source); the two breakeven fields are nullable. -/
structure ScenarioResult where
  scenario : EfficacyScenario
  label : String
  savingsAnnual : JSNum
  investmentAnnual : JSNum
  netProfitAnnual : JSNum
  roiRatio : JSNum
  returnPerCowYear : JSNum
  returnPerCowMonth : JSNum
  returnPerCowDay : JSNum
  monthsToBreakeven : Option JSNum
  daysToBreakeven : Option JSNum
deriving DecidableEq

/-- `DEATH_REDUCTION_BASE` (source line 85). -/
def DEATH_REDUCTION_BASE : ℚ := 0.113

/-- `CULLING_VOLUNTARY_REDUCTION_BASE` (source line 86). -/
def CULLING_VOLUNTARY_REDUCTION_BASE : ℚ := 0.0666

/-- `CULLING_SOLD_REDUCTION_BASE` (source line 87). -/
def CULLING_SOLD_REDUCTION_BASE : ℚ := 0.113

/-- `HEALTH_EVENT_REDUCTION_BASE` (source line 88). -/
def HEALTH_EVENT_REDUCTION_BASE : ℚ := 0.549

/-- `PRODUCTION_GAIN_PERCENT_BASE` (source line 89). -/
def PRODUCTION_GAIN_PERCENT_BASE : ℚ := 4.94

/-- `SCENARIO_MULTIPLIERS` (source lines 91-95). -/
def SCENARIO_MULTIPLIERS : EfficacyScenario → ℚ
  | .conservative => 0.75
  | .base => 1.0
  | .optimistic => 1.25

/-- `SCENARIO_LABELS` (source lines 97-101). -/
def SCENARIO_LABELS : EfficacyScenario → String
  | .conservative => "Conservative"
  | .base => "Base"
  | .optimistic => "Optimistic"

/-- The effective fresh-cow count (source lines 125-127):
`state.freshOverride ? state.freshPerYear : Math.round(state.milkingCows * 1.35)`. -/
def freshEff (state : CalculatorState) : JSNum :=
  if state.freshOverride then JSNum.fin state.freshPerYear
  else JSNum.round (JSNum.fin state.milkingCows * JSNum.fin 1.35)

/-- Death-event savings term of `computeScenario` (source lines 131-138). -/
def deathSavings (state : CalculatorState) (scenario : EfficacyScenario) : JSNum :=
  let m := JSNum.fin state.milkingCows
  let deathIncidence := JSNum.fin state.deathEvents / m
  let deathReduction := JSNum.fin DEATH_REDUCTION_BASE * JSNum.fin (SCENARIO_MULTIPLIERS scenario)
  let newDeathIncidence := deathIncidence * (JSNum.fin 1 - deathReduction)
  let newDeathEvents :=
    if JSNum.strictEq deathIncidence (JSNum.fin 0) then JSNum.fin state.deathEvents
    else (JSNum.fin state.deathEvents * newDeathIncidence) / deathIncidence
  let deathEventsAvoided := JSNum.fin state.deathEvents - newDeathEvents
  deathEventsAvoided * JSNum.fin state.salvageValue

/-- Culling savings term of `computeScenario` (source lines 140-154).
`newCullingRate` is computed but, as in the source, not consumed further. -/
def cullingSavings (state : CalculatorState) (scenario : EfficacyScenario) : JSNum :=
  let fresh := freshEff state
  let cullingRate := (JSNum.fin state.deathEvents + JSNum.fin state.soldEvents) / fresh
  let soldRate := JSNum.fin state.soldEvents / fresh
  let voluntaryReduction :=
    JSNum.fin CULLING_VOLUNTARY_REDUCTION_BASE * JSNum.fin (SCENARIO_MULTIPLIERS scenario)
  let soldReduction :=
    JSNum.fin CULLING_SOLD_REDUCTION_BASE * JSNum.fin (SCENARIO_MULTIPLIERS scenario)
  let _newCullingRate := cullingRate * (JSNum.fin 1 - voluntaryReduction)
  let newSoldRate := soldRate * (JSNum.fin 1 - soldReduction)
  let cullingVoluntaryDeltaRate := soldRate - newSoldRate
  cullingVoluntaryDeltaRate * JSNum.fin state.soldEvents *
    (JSNum.fin state.replacementCost - JSNum.fin state.salvageValue)

/-- Health-event savings term of `computeScenario` (source lines 157-162):
a `reduce` over the event list with initial accumulator `0`. -/
def healthSavings (state : CalculatorState) (scenario : EfficacyScenario) : JSNum :=
  state.healthEvents.foldl (fun acc ev =>
    let reduction := JSNum.fin HEALTH_EVENT_REDUCTION_BASE * JSNum.fin (SCENARIO_MULTIPLIERS scenario)
    let eventsAvoided := JSNum.fin ev.count * reduction
    let savings := eventsAvoided * JSNum.fin ev.costPerEvent
    acc + savings) (JSNum.fin 0)

/-- Production / IOFC savings term of `computeScenario` (source lines
164-170). -/
def productionSavingsAnnual (state : CalculatorState) (scenario : EfficacyScenario) : JSNum :=
  let gainPercent := JSNum.fin PRODUCTION_GAIN_PERCENT_BASE * JSNum.fin (SCENARIO_MULTIPLIERS scenario)
  let extraRevenuePerCowDay := gainPercent * JSNum.fin state.milkPrice / JSNum.fin 100
  let extraDMLbPerCowDay := gainPercent / JSNum.fin state.lbMilkPerLbDM
  let extraDMCostPerCowDay := extraDMLbPerCowDay * JSNum.fin state.dmCost
  let netIOFCPerCowDay := extraRevenuePerCowDay - extraDMCostPerCowDay
  netIOFCPerCowDay * JSNum.fin state.milkingCows * JSNum.fin 210

/-- Investment (cost side) of `computeScenario` (source lines 172-190);
note the source expression never mentions the scenario multiplier. -/
def investmentAnnual (state : CalculatorState) : JSNum :=
  let m := JSNum.fin state.milkingCows
  let wagePerHour := JSNum.fin 20
  let monthlyHours := JSNum.fin 22 * JSNum.fin 30
  let laborChangeFraction := JSNum.fin 0.1
  let changedHoursPerMonth := monthlyHours * laborChangeFraction
  let laborCostPerMonth := changedHoursPerMonth * wagePerHour
  let laborCostAnnual := laborCostPerMonth * JSNum.fin 12
  let costPerDose := JSNum.fin 4.5
  let applicatorCost := JSNum.fin 40
  let applicatorCount := JSNum.fin 3
  let applicationsPerYear := JSNum.fin 1
  let productCostAnnual := m * costPerDose * applicationsPerYear
  let applicatorInvestment := applicatorCost * applicatorCount
  productCostAnnual + applicatorInvestment + laborCostAnnual

/-- `computeScenario` (source lines 120-227), assembled from the term
definitions above, which mirror the source's intermediate constants. -/
def computeScenario (state : CalculatorState) (scenario : EfficacyScenario) : ScenarioResult :=
  let m := JSNum.fin state.milkingCows
  let totalSavingsAnnual :=
    deathSavings state scenario + cullingSavings state scenario +
      healthSavings state scenario + productionSavingsAnnual state scenario
  let investment := investmentAnnual state
  let netProfit := totalSavingsAnnual - investment
  let roi :=
    if JSNum.jsGt investment (JSNum.fin 0) then totalSavingsAnnual / investment
    else JSNum.fin 0
  let returnPerCowYear := netProfit / m
  let returnPerCowMonth := returnPerCowYear / JSNum.fin 12
  let returnPerCowDay := returnPerCowMonth / JSNum.fin 30
  let breakevenReached :=
    JSNum.jsGt totalSavingsAnnual (JSNum.fin 0) && JSNum.jsGt investment (JSNum.fin 0)
  { scenario := scenario
    label := SCENARIO_LABELS scenario
    savingsAnnual := totalSavingsAnnual
    investmentAnnual := investment
    netProfitAnnual := netProfit
    roiRatio := roi
    returnPerCowYear := returnPerCowYear
    returnPerCowMonth := returnPerCowMonth
    returnPerCowDay := returnPerCowDay
    monthsToBreakeven :=
      if breakevenReached then some (investment / totalSavingsAnnual * JSNum.fin 12) else none
    daysToBreakeven :=
      if breakevenReached then some (investment / totalSavingsAnnual * JSNum.fin 365) else none }

/-- `defaultHealthEvents` (source lines 37-52). -/
def defaultHealthEvents : List HealthEventInput :=
  [ { name := "Metritis", key := "metritis", count := 900, costPerEvent := 400 },
    { name := "Mastitis", key := "mastitis", count := 2500, costPerEvent := 400 },
    { name := "Clinical Hypocalcemia / Milk Fever", key := "milkFever", count := 150, costPerEvent := 275 },
    { name := "Ketosis", key := "ketosis", count := 600, costPerEvent := 200 },
    { name := "Retained Placenta", key := "retainedPlacenta", count := 400, costPerEvent := 330 },
    { name := "Displaced Abomasum", key := "da", count := 150, costPerEvent := 640 },
    { name := "Respiratory Disorders", key := "respiratory", count := 300, costPerEvent := 400 },
    { name := "Digestive Disorders", key := "digestive", count := 400, costPerEvent := 250 },
    { name := "Lameness", key := "lameness", count := 900, costPerEvent := 225 } ]

/-- `defaultState` (source lines 54-68). -/
def defaultState : CalculatorState :=
  { milkingCows := 10000
    freshPerYear := 13500
    freshOverride := false
    replacementCost := 3500
    salvageValue := 2000
    milkPrice := 20
    lbMilkPerLbDM := 1.8
    dmCost := 0.13
    deathEvents := 700
    soldEvents := 3000
    healthEvents := defaultHealthEvents }

/-- Rational value of the effective fresh-cow count on finite inputs;
`freshEff` always returns `JSNum.fin (freshQ state)` (proved below). -/
def freshQ (state : CalculatorState) : ℚ :=
  if state.freshOverride then state.freshPerYear
  else ((⌊state.milkingCows * 1.35 + 1/2⌋ : ℤ) : ℚ)

/-- Sum of `count * costPerEvent` over the health-event table; the
scenario-independent factor of the health savings. -/
def healthSum (state : CalculatorState) : ℚ :=
  (state.healthEvents.map (fun ev => ev.count * ev.costPerEvent)).sum

/-- The scenario-independent factor of `savingsAnnual`: on inputs with
nonzero `milkingCows`, nonzero effective fresh count and nonzero
`lbMilkPerLbDM`, `savingsAnnual` equals the scenario multiplier times this
coefficient (proved below). -/
def savingsCoef (state : CalculatorState) : ℚ :=
  DEATH_REDUCTION_BASE * state.deathEvents * state.salvageValue +
    CULLING_SOLD_REDUCTION_BASE * (state.soldEvents / freshQ state) * state.soldEvents *
      (state.replacementCost - state.salvageValue) +
    HEALTH_EVENT_REDUCTION_BASE * healthSum state +
    PRODUCTION_GAIN_PERCENT_BASE *
      (state.milkPrice / 100 - state.dmCost / state.lbMilkPerLbDM) *
      state.milkingCows * 210

/-- Default inputs with the herd size set to zero (division-by-zero probe). -/
def stateZeroCows : CalculatorState := { defaultState with milkingCows := 0 }

/-- Default inputs with a user-overridden fresh count of zero. -/
def stateZeroFresh : CalculatorState :=
  { defaultState with freshOverride := true, freshPerYear := 0 }

/-- Default inputs with zero herd size and zero death events. -/
def stateZeroDeathZeroCows : CalculatorState :=
  { defaultState with milkingCows := 0, deathEvents := 0 }

/-- A nonnegative input whose feed cost exceeds its milk revenue, making the
production term negative: one cow, milk price 0, feed cost 1 per lb DM, no
deaths, no sales, no health events. -/
def stateNegIOFC : CalculatorState :=
  { milkingCows := 1
    freshPerYear := 1
    freshOverride := true
    replacementCost := 0
    salvageValue := 0
    milkPrice := 0
    lbMilkPerLbDM := 1
    dmCost := 1
    deathEvents := 0
    soldEvents := 0
    healthEvents := [] }

/-- A sample health event (permutation witness data). -/
def healthEventA : HealthEventInput :=
  { name := "Metritis", key := "metritis", count := 900, costPerEvent := 400 }

/-- A second sample health event (permutation witness data). -/
def healthEventB : HealthEventInput :=
  { name := "Ketosis", key := "ketosis", count := 600, costPerEvent := 200 }

/-- A health event with count zero (neutral-element witness data). -/
def zeroCountEvent : HealthEventInput :=
  { name := "Extra", key := "extra", count := 0, costPerEvent := 123 }

/-- Default inputs with the health-event table cut down to two rows. -/
def stateTwoEvents : CalculatorState :=
  { defaultState with healthEvents := [healthEventA, healthEventB] }


namespace JSNum

@[simp] theorem fin_add_fin (a b : ℚ) : fin a + fin b = fin (a + b) := rfl

@[simp] theorem fin_mul_fin (a b : ℚ) : fin a * fin b = fin (a * b) := rfl

@[simp] theorem neg_fin (a : ℚ) : -(fin a) = fin (-a) := rfl

@[simp] theorem fin_sub_fin (a b : ℚ) : fin a - fin b = fin (a - b) := by
  show add (fin a) (neg (fin b)) = _
  simp [add, neg, sub_eq_add_neg]

@[simp] theorem nan_add (x : JSNum) : nan + x = nan := by cases x <;> rfl

@[simp] theorem add_nan (x : JSNum) : x + nan = nan := by cases x <;> rfl

@[simp] theorem nan_mul (x : JSNum) : nan * x = nan := by cases x <;> rfl

@[simp] theorem mul_nan (x : JSNum) : x * nan = nan := by cases x <;> rfl

@[simp] theorem nan_sub (x : JSNum) : nan - x = nan := by cases x <;> rfl

@[simp] theorem sub_nan (x : JSNum) : x - nan = nan := by cases x <;> rfl

@[simp] theorem nan_div (x : JSNum) : nan / x = nan := by cases x <;> rfl

@[simp] theorem div_nan (x : JSNum) : x / nan = nan := by cases x <;> rfl

theorem fin_div_fin {b : ℚ} (a : ℚ) (h : b ≠ 0) : fin a / fin b = fin (a / b) := by
  show div _ _ = _
  simp [div, h]

theorem fin_div_zero_of_pos {a : ℚ} (h : 0 < a) : fin a / fin 0 = inf := by
  show div _ _ = _
  simp [div, h]

theorem fin_div_zero_of_neg {a : ℚ} (h : a < 0) : fin a / fin 0 = ninf := by
  show div _ _ = _
  simp [div, h, asymm h]

@[simp] theorem zero_div_zero : fin 0 / fin 0 = nan := by
  show div _ _ = _
  simp [div]

theorem inf_mul_fin_of_pos {b : ℚ} (h : 0 < b) : inf * fin b = inf := by
  show mul _ _ = _
  simp [mul, h]

theorem ninf_mul_fin_of_pos {b : ℚ} (h : 0 < b) : ninf * fin b = ninf := by
  show mul _ _ = _
  simp [mul, h]

theorem fin_mul_inf_of_pos {a : ℚ} (h : 0 < a) : fin a * inf = inf := by
  show mul _ _ = _
  simp [mul, h]

theorem fin_mul_inf_of_neg {a : ℚ} (h : a < 0) : fin a * inf = ninf := by
  show mul _ _ = _
  simp [mul, h, asymm h]

theorem fin_mul_ninf_of_pos {a : ℚ} (h : 0 < a) : fin a * ninf = ninf := by
  show mul _ _ = _
  simp [mul, h]

theorem fin_mul_ninf_of_neg {a : ℚ} (h : a < 0) : fin a * ninf = inf := by
  show mul _ _ = _
  simp [mul, h, asymm h]

@[simp] theorem inf_div_inf : inf / inf = nan := rfl

@[simp] theorem inf_div_ninf : inf / ninf = nan := rfl

@[simp] theorem ninf_div_inf : ninf / inf = nan := rfl

@[simp] theorem ninf_div_ninf : ninf / ninf = nan := rfl

@[simp] theorem strictEq_fin_fin (a b : ℚ) : strictEq (fin a) (fin b) = decide (a = b) := rfl

@[simp] theorem strictEq_inf_fin (b : ℚ) : strictEq inf (fin b) = false := rfl

@[simp] theorem strictEq_ninf_fin (b : ℚ) : strictEq ninf (fin b) = false := rfl

@[simp] theorem strictEq_nan_left (x : JSNum) : strictEq nan x = false := by cases x <;> rfl

@[simp] theorem jsLt_fin_fin (a b : ℚ) : jsLt (fin a) (fin b) = decide (a < b) := rfl

@[simp] theorem jsLe_fin_fin (a b : ℚ) : jsLe (fin a) (fin b) = decide (a ≤ b) := rfl

@[simp] theorem jsGt_fin_fin (a b : ℚ) : jsGt (fin a) (fin b) = decide (b < a) := rfl

@[simp] theorem jsGe_fin_fin (a b : ℚ) : jsGe (fin a) (fin b) = decide (b ≤ a) := rfl

@[simp] theorem jsGt_nan_left (x : JSNum) : jsGt nan x = false := by cases x <;> rfl

@[simp] theorem jsGt_nan_right (x : JSNum) : jsGt x nan = false := by cases x <;> rfl

@[simp] theorem jsLe_nan_left (x : JSNum) : jsLe nan x = false := by cases x <;> rfl

@[simp] theorem jsLe_nan_right (x : JSNum) : jsLe x nan = false := by cases x <;> rfl

@[simp] theorem round_fin (a : ℚ) : round (fin a) = fin ((⌊a + 1/2⌋ : ℤ) : ℚ) := rfl

end JSNum

theorem mult_pos (sc : EfficacyScenario) : 0 < SCENARIO_MULTIPLIERS sc := by
  cases sc <;> norm_num [SCENARIO_MULTIPLIERS]

theorem one_sub_death_reduction_pos (sc : EfficacyScenario) :
    0 < 1 - DEATH_REDUCTION_BASE * SCENARIO_MULTIPLIERS sc := by
  cases sc <;> norm_num [SCENARIO_MULTIPLIERS, DEATH_REDUCTION_BASE]

theorem one_sub_sold_reduction_pos (sc : EfficacyScenario) :
    0 < 1 - CULLING_SOLD_REDUCTION_BASE * SCENARIO_MULTIPLIERS sc := by
  cases sc <;> norm_num [SCENARIO_MULTIPLIERS, CULLING_SOLD_REDUCTION_BASE]

theorem freshEff_eq (state : CalculatorState) : freshEff state = JSNum.fin (freshQ state) := by
  unfold freshEff freshQ
  split <;> simp

theorem deathSavings_eq (state : CalculatorState) (sc : EfficacyScenario)
    (hm : state.milkingCows ≠ 0) :
    deathSavings state sc =
      JSNum.fin (state.deathEvents * (DEATH_REDUCTION_BASE * SCENARIO_MULTIPLIERS sc) *
        state.salvageValue) := by
  simp only [deathSavings, JSNum.fin_mul_fin, JSNum.fin_sub_fin]
  rw [JSNum.fin_div_fin _ hm]
  by_cases hd : state.deathEvents = 0
  · simp [hd]
  · have hdm : state.deathEvents / state.milkingCows ≠ 0 := div_ne_zero hd hm
    simp only [JSNum.strictEq_fin_fin]
    rw [if_neg (by simp [hdm])]
    simp only [JSNum.fin_mul_fin]
    rw [JSNum.fin_div_fin _ hdm]
    simp only [JSNum.fin_sub_fin, JSNum.fin_mul_fin]
    congr 1
    have hX : state.deathEvents *
        (state.deathEvents / state.milkingCows *
          (1 - DEATH_REDUCTION_BASE * SCENARIO_MULTIPLIERS sc)) /
        (state.deathEvents / state.milkingCows) =
        state.deathEvents * (1 - DEATH_REDUCTION_BASE * SCENARIO_MULTIPLIERS sc) := by
      rw [mul_comm (state.deathEvents / state.milkingCows)
        (1 - DEATH_REDUCTION_BASE * SCENARIO_MULTIPLIERS sc)]
      rw [← mul_assoc, mul_div_assoc, div_self hdm, mul_one]
    rw [hX]
    ring

theorem deathSavings_zero_cows (state : CalculatorState) (sc : EfficacyScenario)
    (hm : state.milkingCows = 0) : deathSavings state sc = JSNum.nan := by
  have hr : 0 < 1 - DEATH_REDUCTION_BASE * SCENARIO_MULTIPLIERS sc :=
    one_sub_death_reduction_pos sc
  simp only [deathSavings, hm, JSNum.fin_mul_fin, JSNum.fin_sub_fin]
  rcases lt_trichotomy state.deathEvents 0 with hd | hd | hd
  · rw [JSNum.fin_div_zero_of_neg hd, JSNum.ninf_mul_fin_of_pos hr]
    rw [show JSNum.strictEq JSNum.ninf (JSNum.fin 0) = false from rfl]
    simp only [Bool.false_eq_true, if_false]
    rw [JSNum.fin_mul_ninf_of_neg hd]
    simp
  · rw [hd, JSNum.zero_div_zero]
    simp
  · rw [JSNum.fin_div_zero_of_pos hd, JSNum.inf_mul_fin_of_pos hr]
    rw [show JSNum.strictEq JSNum.inf (JSNum.fin 0) = false from rfl]
    simp only [Bool.false_eq_true, if_false]
    rw [JSNum.fin_mul_inf_of_pos hd]
    simp

theorem cullingSavings_eq (state : CalculatorState) (sc : EfficacyScenario)
    (hf : freshQ state ≠ 0) :
    cullingSavings state sc =
      JSNum.fin (state.soldEvents / freshQ state *
        (CULLING_SOLD_REDUCTION_BASE * SCENARIO_MULTIPLIERS sc) * state.soldEvents *
        (state.replacementCost - state.salvageValue)) := by
  simp only [cullingSavings, freshEff_eq, JSNum.fin_add_fin, JSNum.fin_mul_fin,
    JSNum.fin_sub_fin]
  rw [JSNum.fin_div_fin _ hf]
  simp only [JSNum.fin_mul_fin, JSNum.fin_sub_fin]
  congr 1
  ring

theorem cullingSavings_fresh_zero (state : CalculatorState) (sc : EfficacyScenario)
    (hf : freshQ state = 0) (hs : state.soldEvents ≠ 0) :
    cullingSavings state sc = JSNum.nan := by
  have hr : 0 < 1 - CULLING_SOLD_REDUCTION_BASE * SCENARIO_MULTIPLIERS sc :=
    one_sub_sold_reduction_pos sc
  simp only [cullingSavings, freshEff_eq, hf, JSNum.fin_add_fin, JSNum.fin_mul_fin,
    JSNum.fin_sub_fin]
  rcases hs.lt_or_lt with hs' | hs'
  · rw [JSNum.fin_div_zero_of_neg hs', JSNum.ninf_mul_fin_of_pos hr]
    rw [show JSNum.ninf - JSNum.ninf = JSNum.nan from rfl]
    simp
  · rw [JSNum.fin_div_zero_of_pos hs', JSNum.inf_mul_fin_of_pos hr]
    rw [show JSNum.inf - JSNum.inf = JSNum.nan from rfl]
    simp

theorem healthSavings_foldl (H μ : ℚ) (l : List HealthEventInput) (q : ℚ) :
    l.foldl (fun acc ev =>
        acc + JSNum.fin ev.count * (JSNum.fin H * JSNum.fin μ) * JSNum.fin ev.costPerEvent)
      (JSNum.fin q) =
      JSNum.fin (q + H * μ * (l.map (fun ev => ev.count * ev.costPerEvent)).sum) := by
  induction l generalizing q with
  | nil => simp
  | cons ev tl ih =>
      rw [List.foldl_cons]
      have hacc : JSNum.fin q +
          JSNum.fin ev.count * (JSNum.fin H * JSNum.fin μ) * JSNum.fin ev.costPerEvent =
          JSNum.fin (q + ev.count * (H * μ) * ev.costPerEvent) := by simp
      rw [hacc, ih]
      simp only [List.map_cons, List.sum_cons]
      congr 1
      ring

theorem healthSavings_eq (state : CalculatorState) (sc : EfficacyScenario) :
    healthSavings state sc =
      JSNum.fin (HEALTH_EVENT_REDUCTION_BASE * SCENARIO_MULTIPLIERS sc * healthSum state) := by
  simp only [healthSavings]
  rw [healthSavings_foldl]
  simp [healthSum]

theorem productionSavingsAnnual_eq (state : CalculatorState) (sc : EfficacyScenario)
    (hlb : state.lbMilkPerLbDM ≠ 0) :
    productionSavingsAnnual state sc =
      JSNum.fin (PRODUCTION_GAIN_PERCENT_BASE * SCENARIO_MULTIPLIERS sc *
        (state.milkPrice / 100 - state.dmCost / state.lbMilkPerLbDM) *
        state.milkingCows * 210) := by
  simp only [productionSavingsAnnual, JSNum.fin_mul_fin]
  rw [JSNum.fin_div_fin _ (by norm_num : (100 : ℚ) ≠ 0), JSNum.fin_div_fin _ hlb]
  simp only [JSNum.fin_mul_fin, JSNum.fin_sub_fin]
  congr 1
  ring

theorem investmentAnnual_eq (state : CalculatorState) :
    investmentAnnual state = JSNum.fin (4.5 * state.milkingCows + 120 + 15840) := by
  simp only [investmentAnnual, JSNum.fin_mul_fin, JSNum.fin_add_fin]
  congr 1
  norm_num
  ring

theorem computeScenario_savingsAnnual (state : CalculatorState) (sc : EfficacyScenario) :
    (computeScenario state sc).savingsAnnual =
      deathSavings state sc + cullingSavings state sc + healthSavings state sc +
        productionSavingsAnnual state sc := rfl

theorem computeScenario_investmentAnnual (state : CalculatorState) (sc : EfficacyScenario) :
    (computeScenario state sc).investmentAnnual = investmentAnnual state := rfl

theorem computeScenario_netProfitAnnual (state : CalculatorState) (sc : EfficacyScenario) :
    (computeScenario state sc).netProfitAnnual =
      (computeScenario state sc).savingsAnnual - investmentAnnual state := rfl

theorem computeScenario_roiRatio (state : CalculatorState) (sc : EfficacyScenario) :
    (computeScenario state sc).roiRatio =
      (if JSNum.jsGt (investmentAnnual state) (JSNum.fin 0) then
        (computeScenario state sc).savingsAnnual / investmentAnnual state
      else JSNum.fin 0) := rfl

theorem computeScenario_returnPerCowYear (state : CalculatorState) (sc : EfficacyScenario) :
    (computeScenario state sc).returnPerCowYear =
      (computeScenario state sc).netProfitAnnual / JSNum.fin state.milkingCows := rfl

theorem computeScenario_returnPerCowMonth (state : CalculatorState) (sc : EfficacyScenario) :
    (computeScenario state sc).returnPerCowMonth =
      (computeScenario state sc).returnPerCowYear / JSNum.fin 12 := rfl

theorem computeScenario_returnPerCowDay (state : CalculatorState) (sc : EfficacyScenario) :
    (computeScenario state sc).returnPerCowDay =
      (computeScenario state sc).returnPerCowMonth / JSNum.fin 30 := rfl

theorem computeScenario_monthsToBreakeven (state : CalculatorState) (sc : EfficacyScenario) :
    (computeScenario state sc).monthsToBreakeven =
      (if JSNum.jsGt (computeScenario state sc).savingsAnnual (JSNum.fin 0) &&
          JSNum.jsGt (investmentAnnual state) (JSNum.fin 0) then
        some (investmentAnnual state / (computeScenario state sc).savingsAnnual * JSNum.fin 12)
      else none) := rfl

theorem computeScenario_daysToBreakeven (state : CalculatorState) (sc : EfficacyScenario) :
    (computeScenario state sc).daysToBreakeven =
      (if JSNum.jsGt (computeScenario state sc).savingsAnnual (JSNum.fin 0) &&
          JSNum.jsGt (investmentAnnual state) (JSNum.fin 0) then
        some (investmentAnnual state / (computeScenario state sc).savingsAnnual * JSNum.fin 365)
      else none) := rfl

theorem savingsAnnual_zero_cows (state : CalculatorState) (sc : EfficacyScenario)
    (hm : state.milkingCows = 0) :
    (computeScenario state sc).savingsAnnual = JSNum.nan := by
  rw [computeScenario_savingsAnnual, deathSavings_zero_cows state sc hm]
  simp

theorem savingsAnnual_eq (state : CalculatorState) (sc : EfficacyScenario)
    (hm : state.milkingCows ≠ 0) (hf : freshQ state ≠ 0) (hlb : state.lbMilkPerLbDM ≠ 0) :
    (computeScenario state sc).savingsAnnual =
      JSNum.fin (SCENARIO_MULTIPLIERS sc * savingsCoef state) := by
  rw [computeScenario_savingsAnnual, deathSavings_eq state sc hm, cullingSavings_eq state sc hf,
    healthSavings_eq, productionSavingsAnnual_eq state sc hlb]
  simp only [JSNum.fin_add_fin]
  congr 1
  unfold savingsCoef
  ring

theorem savingsCoef_nonneg (state : CalculatorState)
    (hm : 0 ≤ state.milkingCows) (hf : 0 < freshQ state)
    (hrs : state.salvageValue ≤ state.replacementCost) (hsv : 0 ≤ state.salvageValue)
    (hd : 0 ≤ state.deathEvents) (hh : 0 ≤ healthSum state)
    (hio : state.dmCost / state.lbMilkPerLbDM ≤ state.milkPrice / 100) :
    0 ≤ savingsCoef state := by
  unfold savingsCoef
  have t1 : 0 ≤ DEATH_REDUCTION_BASE * state.deathEvents * state.salvageValue :=
    mul_nonneg (mul_nonneg (by norm_num [DEATH_REDUCTION_BASE]) hd) hsv
  have t2 : 0 ≤ CULLING_SOLD_REDUCTION_BASE * (state.soldEvents / freshQ state) *
      state.soldEvents * (state.replacementCost - state.salvageValue) := by
    have hrw : CULLING_SOLD_REDUCTION_BASE * (state.soldEvents / freshQ state) *
        state.soldEvents * (state.replacementCost - state.salvageValue) =
        CULLING_SOLD_REDUCTION_BASE * (state.soldEvents * state.soldEvents / freshQ state) *
          (state.replacementCost - state.salvageValue) := by
      ring
    rw [hrw]
    exact mul_nonneg (mul_nonneg (by norm_num [CULLING_SOLD_REDUCTION_BASE])
      (div_nonneg (mul_self_nonneg _) hf.le)) (sub_nonneg.mpr hrs)
  have t3 : 0 ≤ HEALTH_EVENT_REDUCTION_BASE * healthSum state :=
    mul_nonneg (by norm_num [HEALTH_EVENT_REDUCTION_BASE]) hh
  have t4 : 0 ≤ PRODUCTION_GAIN_PERCENT_BASE *
      (state.milkPrice / 100 - state.dmCost / state.lbMilkPerLbDM) *
      state.milkingCows * 210 := by
    have := mul_nonneg (mul_nonneg (mul_nonneg
      (by norm_num [PRODUCTION_GAIN_PERCENT_BASE] : (0:ℚ) ≤ PRODUCTION_GAIN_PERCENT_BASE)
      (sub_nonneg.mpr hio)) hm) (by norm_num : (0:ℚ) ≤ 210)
    exact this
  linarith

theorem freshQ_defaultState : freshQ defaultState = 13500 := by
  have h1 : defaultState.milkingCows * 1.35 + 1/2 = 27001/2 := by
    norm_num [defaultState]
  simp only [freshQ, defaultState, Bool.false_eq_true, if_false, h1]
  norm_num [Int.floor_eq_iff]

theorem healthSum_defaultState : healthSum defaultState = 2171750 := by
  simp only [healthSum, defaultState, defaultHealthEvents, List.map_cons, List.map_nil,
    List.sum_cons, List.sum_nil]
  norm_num

theorem savingsAnnual_defaultState_base_pos :
    JSNum.jsGt (computeScenario defaultState .base).savingsAnnual (JSNum.fin 0) = true := by
  rw [savingsAnnual_eq defaultState .base (by norm_num [defaultState])
    (by rw [freshQ_defaultState]; norm_num) (by norm_num [defaultState])]
  simp only [JSNum.jsGt_fin_fin, decide_eq_true_eq]
  unfold savingsCoef
  rw [freshQ_defaultState, healthSum_defaultState]
  norm_num [defaultState, DEATH_REDUCTION_BASE, CULLING_SOLD_REDUCTION_BASE,
    HEALTH_EVENT_REDUCTION_BASE, PRODUCTION_GAIN_PERCENT_BASE, SCENARIO_MULTIPLIERS]

theorem investment_defaultState_pos :
    JSNum.jsGt (computeScenario defaultState .base).investmentAnnual (JSNum.fin 0) = true := by
  rw [computeScenario_investmentAnnual, investmentAnnual_eq]
  simp only [JSNum.jsGt_fin_fin, decide_eq_true_eq]
  norm_num [defaultState]

theorem savingsAnnual_culling_nan (state : CalculatorState) (sc : EfficacyScenario)
    (h : cullingSavings state sc = JSNum.nan) :
    (computeScenario state sc).savingsAnnual = JSNum.nan := by
  rw [computeScenario_savingsAnnual, h]
  simp

theorem computeScenario_healthEvents_congr (state : CalculatorState)
    (l : List HealthEventInput) (sc : EfficacyScenario)
    (hh : healthSavings { state with healthEvents := l } sc = healthSavings state sc) :
    computeScenario { state with healthEvents := l } sc = computeScenario state sc := by
  have hd : deathSavings { state with healthEvents := l } sc = deathSavings state sc := rfl
  have hc : cullingSavings { state with healthEvents := l } sc = cullingSavings state sc := rfl
  have hp : productionSavingsAnnual { state with healthEvents := l } sc =
      productionSavingsAnnual state sc := rfl
  have hi : investmentAnnual { state with healthEvents := l } = investmentAnnual state := rfl
  simp only [computeScenario, hd, hc, hh, hp, hi]

/-- C1 (counterexample): at the default inputs with `milkingCows = 0`,
`savingsAnnual` is `NaN`, so the claim that no output field is `NaN` or
`Infinity` fails: the code's only guard tests `deathIncidence === 0`, and
`deathEvents / 0` is not `0`. -/
theorem milkingCows_zero_not_nan_free :
    (computeScenario stateZeroCows .conservative).savingsAnnual = JSNum.nan :=
  savingsAnnual_zero_cows stateZeroCows .conservative rfl

/-- C1 (amended): for every finite input with `milkingCows = 0` and every
scenario, `investmentAnnual` is the finite value 15960 and both breakeven
fields are null, but `savingsAnnual`, `netProfitAnnual`, `roiRatio` and the
three per-cow returns are all `NaN`. -/
theorem zeroMilkingCows_nan_outputs (state : CalculatorState) (sc : EfficacyScenario)
    (hm : state.milkingCows = 0) :
    (computeScenario state sc).savingsAnnual = JSNum.nan ∧
    (computeScenario state sc).netProfitAnnual = JSNum.nan ∧
    (computeScenario state sc).roiRatio = JSNum.nan ∧
    (computeScenario state sc).returnPerCowYear = JSNum.nan ∧
    (computeScenario state sc).returnPerCowMonth = JSNum.nan ∧
    (computeScenario state sc).returnPerCowDay = JSNum.nan ∧
    (computeScenario state sc).investmentAnnual = JSNum.fin 15960 ∧
    (computeScenario state sc).monthsToBreakeven = none ∧
    (computeScenario state sc).daysToBreakeven = none := by
  have hs := savingsAnnual_zero_cows state sc hm
  have hi : investmentAnnual state = JSNum.fin 15960 := by
    rw [investmentAnnual_eq, hm]
    norm_num
  have hnp : (computeScenario state sc).netProfitAnnual = JSNum.nan := by
    rw [computeScenario_netProfitAnnual, hs, hi]
    simp
  have hroi : (computeScenario state sc).roiRatio = JSNum.nan := by
    rw [computeScenario_roiRatio, hs, hi]
    norm_num [JSNum.jsGt_fin_fin]
  have hy : (computeScenario state sc).returnPerCowYear = JSNum.nan := by
    rw [computeScenario_returnPerCowYear, hnp]
    simp
  have hmo : (computeScenario state sc).returnPerCowMonth = JSNum.nan := by
    rw [computeScenario_returnPerCowMonth, hy]
    simp
  have hdy : (computeScenario state sc).returnPerCowDay = JSNum.nan := by
    rw [computeScenario_returnPerCowDay, hmo]
    simp
  have hmb : (computeScenario state sc).monthsToBreakeven = none := by
    rw [computeScenario_monthsToBreakeven, hs]
    simp
  have hdb : (computeScenario state sc).daysToBreakeven = none := by
    rw [computeScenario_daysToBreakeven, hs]
    simp
  exact ⟨hs, hnp, hroi, hy, hmo, hdy, by rw [computeScenario_investmentAnnual, hi], hmb, hdb⟩

/-- C1 (witness): the amended statement instantiated at the default inputs
with the herd size zeroed. -/
theorem zeroMilkingCows_nan_outputs_witness :
    stateZeroCows.milkingCows = 0 ∧
    (computeScenario stateZeroCows .base).savingsAnnual = JSNum.nan ∧
    (computeScenario stateZeroCows .base).investmentAnnual = JSNum.fin 15960 :=
  ⟨rfl, (zeroMilkingCows_nan_outputs stateZeroCows .base rfl).1,
    (zeroMilkingCows_nan_outputs stateZeroCows .base rfl).2.2.2.2.2.2.1⟩

/-- C2 (counterexample): with the default inputs, `freshOverride = true`,
`freshPerYear = 0` and `soldEvents = 3000`, the culling-savings term is
`NaN`, not `0`: `soldRate` is `Infinity` and `soldRate - newSoldRate` is
`Infinity - Infinity = NaN`. -/
theorem freshZero_cullingSavings_not_zero :
    cullingSavings stateZeroFresh .base = JSNum.nan ∧
    cullingSavings stateZeroFresh .base ≠ JSNum.fin 0 := by
  have hf : freshQ stateZeroFresh = 0 := by simp [freshQ, stateZeroFresh]
  have hc := cullingSavings_fresh_zero stateZeroFresh .base hf
    (by norm_num [stateZeroFresh, defaultState])
  exact ⟨hc, by rw [hc]; simp⟩

/-- C2 (amended): for every input with `freshOverride = true`,
`freshPerYear = 0` and `soldEvents ≠ 0`, and every scenario, the
culling-savings term is `NaN` (there is no zero-guard on `fresh`), and
consequently `savingsAnnual` is `NaN`. -/
theorem freshZero_cullingSavings_nan (state : CalculatorState) (sc : EfficacyScenario)
    (ho : state.freshOverride = true) (hfp : state.freshPerYear = 0)
    (hs : state.soldEvents ≠ 0) :
    cullingSavings state sc = JSNum.nan ∧
    (computeScenario state sc).savingsAnnual = JSNum.nan := by
  have hf : freshQ state = 0 := by simp [freshQ, ho, hfp]
  have hc := cullingSavings_fresh_zero state sc hf hs
  exact ⟨hc, savingsAnnual_culling_nan state sc hc⟩

/-- C2 (witness): the amended statement instantiated at the default inputs
with the fresh count overridden to zero. -/
theorem freshZero_cullingSavings_nan_witness :
    stateZeroFresh.freshOverride = true ∧ stateZeroFresh.freshPerYear = 0 ∧
    stateZeroFresh.soldEvents ≠ 0 ∧
    cullingSavings stateZeroFresh .optimistic = JSNum.nan :=
  ⟨rfl, rfl, by norm_num [stateZeroFresh, defaultState],
    (freshZero_cullingSavings_nan stateZeroFresh .optimistic rfl rfl
      (by norm_num [stateZeroFresh, defaultState])).1⟩

/-- C4 (counterexample): with `deathEvents = 0` and `milkingCows = 0`, the
death-savings term is `NaN`, not `0`: `0 / 0` is `NaN`, and `NaN === 0` is
false, so the zero-guard branch is not taken. -/
theorem deathSavings_nan_at_zero_cows :
    deathSavings stateZeroDeathZeroCows .conservative = JSNum.nan ∧
    deathSavings stateZeroDeathZeroCows .conservative ≠ JSNum.fin 0 := by
  have h := deathSavings_zero_cows stateZeroDeathZeroCows .conservative rfl
  exact ⟨h, by rw [h]; simp⟩

/-- C4 (amended): for every input with `deathEvents = 0` and
`milkingCows ≠ 0` and every scenario, the death-savings term is exactly `0`
(the zero-guard branch is taken) and `savingsAnnual` is the sum of the
remaining three terms with a zero death contribution. -/
theorem deathSavings_zero_of_no_deaths (state : CalculatorState) (sc : EfficacyScenario)
    (hd : state.deathEvents = 0) (hm : state.milkingCows ≠ 0) :
    deathSavings state sc = JSNum.fin 0 ∧
    (computeScenario state sc).savingsAnnual =
      JSNum.fin 0 + cullingSavings state sc + healthSavings state sc +
        productionSavingsAnnual state sc := by
  have h := deathSavings_eq state sc hm
  rw [hd] at h
  simp only [zero_mul] at h
  exact ⟨h, by rw [computeScenario_savingsAnnual, h]⟩

/-- C4 (witness): the amended statement instantiated at the default inputs
with the death events zeroed. -/
theorem deathSavings_zero_of_no_deaths_witness :
    ({ defaultState with deathEvents := 0 } : CalculatorState).deathEvents = 0 ∧
    ({ defaultState with deathEvents := 0 } : CalculatorState).milkingCows ≠ 0 ∧
    deathSavings { defaultState with deathEvents := 0 } .base = JSNum.fin 0 :=
  ⟨rfl, by norm_num [defaultState],
    (deathSavings_zero_of_no_deaths { defaultState with deathEvents := 0 } .base rfl
      (by norm_num [defaultState])).1⟩

/-- C6: for every input and any two scenarios, the investment side of the
result is identical: the source expression for `investmentAnnual` never
mentions the scenario multiplier. -/
theorem investmentAnnual_scenario_invariant (state : CalculatorState)
    (s1 s2 : EfficacyScenario) :
    (computeScenario state s1).investmentAnnual =
      (computeScenario state s2).investmentAnnual := rfl

/-- C7: for every input with `milkingCows = 10000` and `freshOverride =
false`, the effective fresh count is `round(10000 * 1.35) = 13500`, and the
base-scenario investment is `10000*4.5*1 + 40*3 + 660*0.10*20*12 = 60960`
exactly. -/
theorem scenario1_fresh_and_investment (state : CalculatorState)
    (h1 : state.milkingCows = 10000) (h2 : state.freshOverride = false) :
    freshEff state = JSNum.fin 13500 ∧
    (computeScenario state .base).investmentAnnual = JSNum.fin 60960 := by
  constructor
  · rw [freshEff_eq]
    congr 1
    have h3 : state.milkingCows * 1.35 + 1/2 = 27001/2 := by
      rw [h1]
      norm_num
    simp only [freshQ, h2, Bool.false_eq_true, if_false, h3]
    norm_num [Int.floor_eq_iff]
  · rw [computeScenario_investmentAnnual, investmentAnnual_eq, h1]
    norm_num

/-- C7 (witness): the statement instantiated at the default inputs, whose
herd size is 10000 with no fresh override. -/
theorem scenario1_fresh_and_investment_witness :
    defaultState.milkingCows = 10000 ∧ defaultState.freshOverride = false ∧
    freshEff defaultState = JSNum.fin 13500 ∧
    (computeScenario defaultState .base).investmentAnnual = JSNum.fin 60960 :=
  ⟨rfl, rfl, (scenario1_fresh_and_investment defaultState rfl rfl).1,
    (scenario1_fresh_and_investment defaultState rfl rfl).2⟩

/-- C3 (counterexample): at a nonnegative input whose feed cost exceeds its
milk revenue (one cow, milk price 0, feed cost 1), `savingsAnnual` is
strictly decreasing in the scenario multiplier, so the optimistic value is
not ≥ the base value. -/
theorem savingsAnnual_not_monotone_negIOFC :
    JSNum.jsGe (computeScenario stateNegIOFC .optimistic).savingsAnnual
      (computeScenario stateNegIOFC .base).savingsAnnual = false := by
  have hm : stateNegIOFC.milkingCows ≠ 0 := by norm_num [stateNegIOFC]
  have hf : freshQ stateNegIOFC ≠ 0 := by simp [freshQ, stateNegIOFC]
  have hlb : stateNegIOFC.lbMilkPerLbDM ≠ 0 := by norm_num [stateNegIOFC]
  rw [savingsAnnual_eq stateNegIOFC .optimistic hm hf hlb,
    savingsAnnual_eq stateNegIOFC .base hm hf hlb]
  simp only [JSNum.jsGe_fin_fin, decide_eq_false_iff_not, not_le]
  have hcoef : savingsCoef stateNegIOFC = -1037.4 := by
    unfold savingsCoef healthSum
    norm_num [stateNegIOFC, freshQ, DEATH_REDUCTION_BASE, CULLING_SOLD_REDUCTION_BASE,
      HEALTH_EVENT_REDUCTION_BASE, PRODUCTION_GAIN_PERCENT_BASE]
  rw [hcoef]
  norm_num [SCENARIO_MULTIPLIERS]

/-- C3 (amended): `savingsAnnual` is monotone in the scenario (optimistic ≥
base ≥ conservative) for inputs on which every savings term has a
nonnegative scenario coefficient: positive herd, positive effective fresh
count, salvage between 0 and replacement cost, nonnegative death events,
nonnegative health-event cost total, positive lb-milk-per-lb-DM, and feed
cost per lb DM at most milk revenue per percentage point
(`dmCost / lbMilkPerLbDM ≤ milkPrice / 100`). -/
theorem savingsAnnual_scenario_monotone (state : CalculatorState)
    (hm : 0 < state.milkingCows) (hf : 0 < freshQ state)
    (hrs : state.salvageValue ≤ state.replacementCost) (hsv : 0 ≤ state.salvageValue)
    (hd : 0 ≤ state.deathEvents) (hh : 0 ≤ healthSum state)
    (hlb : 0 < state.lbMilkPerLbDM)
    (hio : state.dmCost / state.lbMilkPerLbDM ≤ state.milkPrice / 100) :
    JSNum.jsGe (computeScenario state .optimistic).savingsAnnual
      (computeScenario state .base).savingsAnnual = true ∧
    JSNum.jsGe (computeScenario state .base).savingsAnnual
      (computeScenario state .conservative).savingsAnnual = true := by
  have hcoef := savingsCoef_nonneg state hm.le hf hrs hsv hd hh hio
  rw [savingsAnnual_eq state .optimistic hm.ne' hf.ne' hlb.ne',
    savingsAnnual_eq state .base hm.ne' hf.ne' hlb.ne',
    savingsAnnual_eq state .conservative hm.ne' hf.ne' hlb.ne']
  simp only [JSNum.jsGe_fin_fin, decide_eq_true_eq]
  constructor
  · exact mul_le_mul_of_nonneg_right (by norm_num [SCENARIO_MULTIPLIERS]) hcoef
  · exact mul_le_mul_of_nonneg_right (by norm_num [SCENARIO_MULTIPLIERS]) hcoef

/-- C3 (witness): the amended statement instantiated at the default inputs,
which satisfy every hypothesis. -/
theorem savingsAnnual_scenario_monotone_witness :
    (0 < defaultState.milkingCows ∧ 0 < freshQ defaultState ∧
      defaultState.salvageValue ≤ defaultState.replacementCost ∧
      0 ≤ defaultState.salvageValue ∧ 0 ≤ defaultState.deathEvents ∧
      0 ≤ healthSum defaultState ∧ 0 < defaultState.lbMilkPerLbDM ∧
      defaultState.dmCost / defaultState.lbMilkPerLbDM ≤ defaultState.milkPrice / 100) ∧
    JSNum.jsGe (computeScenario defaultState .optimistic).savingsAnnual
      (computeScenario defaultState .base).savingsAnnual = true := by
  have h1 : 0 < defaultState.milkingCows := by norm_num [defaultState]
  have h2 : 0 < freshQ defaultState := by
    rw [freshQ_defaultState]
    norm_num
  have h3 : defaultState.salvageValue ≤ defaultState.replacementCost := by
    norm_num [defaultState]
  have h4 : (0:ℚ) ≤ defaultState.salvageValue := by norm_num [defaultState]
  have h5 : (0:ℚ) ≤ defaultState.deathEvents := by norm_num [defaultState]
  have h6 : (0:ℚ) ≤ healthSum defaultState := by
    rw [healthSum_defaultState]
    norm_num
  have h7 : 0 < defaultState.lbMilkPerLbDM := by norm_num [defaultState]
  have h8 : defaultState.dmCost / defaultState.lbMilkPerLbDM ≤ defaultState.milkPrice / 100 := by
    norm_num [defaultState]
  exact ⟨⟨h1, h2, h3, h4, h5, h6, h7, h8⟩,
    (savingsAnnual_scenario_monotone defaultState h1 h2 h3 h4 h5 h6 h7 h8).1⟩

/-- C5 (counterexample): at the default inputs with `milkingCows = 0`, the
breakeven fields are null although neither `savingsAnnual ≤ 0` nor
`investmentAnnual ≤ 0` holds — `savingsAnnual` is `NaN` and every JS
comparison on `NaN` is false — so "null iff savings ≤ 0 or investment ≤ 0"
fails. -/
theorem breakeven_null_despite_not_nonpos :
    (computeScenario stateZeroCows .base).monthsToBreakeven = none ∧
    JSNum.jsLe (computeScenario stateZeroCows .base).savingsAnnual (JSNum.fin 0) = false ∧
    JSNum.jsLe (computeScenario stateZeroCows .base).investmentAnnual (JSNum.fin 0) = false := by
  have hs := savingsAnnual_zero_cows stateZeroCows .base rfl
  have hi : investmentAnnual stateZeroCows = JSNum.fin 15960 := by
    rw [investmentAnnual_eq]
    norm_num [stateZeroCows, defaultState]
  refine ⟨?_, ?_, ?_⟩
  · rw [computeScenario_monthsToBreakeven, hs]
    simp
  · rw [hs]
    simp
  · rw [computeScenario_investmentAnnual, hi, JSNum.jsLe_fin_fin]
    norm_num

/-- C5 (amended): the breakeven fields are null exactly when not both
`savingsAnnual > 0` and `investmentAnnual > 0` hold under JS comparison
semantics; when `savingsAnnual` is a finite value this coincides with
`savingsAnnual ≤ 0 ∨ investmentAnnual ≤ 0` (the investment is always
finite), and in the non-null case the fields carry
`investmentAnnual / savingsAnnual * 12` and `* 365` respectively. -/
theorem breakeven_null_iff (state : CalculatorState) (sc : EfficacyScenario) :
    ((computeScenario state sc).monthsToBreakeven = none ↔
      ¬(JSNum.jsGt (computeScenario state sc).savingsAnnual (JSNum.fin 0) = true ∧
        JSNum.jsGt (computeScenario state sc).investmentAnnual (JSNum.fin 0) = true)) ∧
    ((computeScenario state sc).daysToBreakeven = none ↔
      ¬(JSNum.jsGt (computeScenario state sc).savingsAnnual (JSNum.fin 0) = true ∧
        JSNum.jsGt (computeScenario state sc).investmentAnnual (JSNum.fin 0) = true)) ∧
    (∀ a b : ℚ, (computeScenario state sc).savingsAnnual = JSNum.fin a →
      (computeScenario state sc).investmentAnnual = JSNum.fin b →
      ((computeScenario state sc).monthsToBreakeven = none ↔ a ≤ 0 ∨ b ≤ 0)) ∧
    (JSNum.jsGt (computeScenario state sc).savingsAnnual (JSNum.fin 0) = true →
      JSNum.jsGt (computeScenario state sc).investmentAnnual (JSNum.fin 0) = true →
      (computeScenario state sc).monthsToBreakeven =
        some ((computeScenario state sc).investmentAnnual /
          (computeScenario state sc).savingsAnnual * JSNum.fin 12) ∧
      (computeScenario state sc).daysToBreakeven =
        some ((computeScenario state sc).investmentAnnual /
          (computeScenario state sc).savingsAnnual * JSNum.fin 365)) := by
  refine ⟨?_, ?_, ?_, ?_⟩
  · rw [computeScenario_monthsToBreakeven, computeScenario_investmentAnnual]
    cases h1 : JSNum.jsGt (computeScenario state sc).savingsAnnual (JSNum.fin 0) <;>
      cases h2 : JSNum.jsGt (investmentAnnual state) (JSNum.fin 0) <;> simp [h1, h2]
  · rw [computeScenario_daysToBreakeven, computeScenario_investmentAnnual]
    cases h1 : JSNum.jsGt (computeScenario state sc).savingsAnnual (JSNum.fin 0) <;>
      cases h2 : JSNum.jsGt (investmentAnnual state) (JSNum.fin 0) <;> simp [h1, h2]
  · intro a b ha hb
    have key : (computeScenario state sc).monthsToBreakeven = none ↔ ¬(0 < a ∧ 0 < b) := by
      rw [computeScenario_monthsToBreakeven, ← computeScenario_investmentAnnual state sc,
        ha, hb]
      simp only [JSNum.jsGt_fin_fin]
      by_cases ha' : 0 < a <;> by_cases hb' : 0 < b <;> simp [ha', hb']
    rw [key, not_and_or, not_lt, not_lt]
  · intro h1 h2
    rw [computeScenario_investmentAnnual] at h2
    rw [computeScenario_monthsToBreakeven, computeScenario_daysToBreakeven, h1, h2]
    simp [computeScenario_investmentAnnual]

/-- C5 (witness): at the default inputs both sides of the breakeven guard
are positive and the months field carries the stated quotient. -/
theorem breakeven_null_iff_witness :
    JSNum.jsGt (computeScenario defaultState .base).savingsAnnual (JSNum.fin 0) = true ∧
    JSNum.jsGt (computeScenario defaultState .base).investmentAnnual (JSNum.fin 0) = true ∧
    (computeScenario defaultState .base).monthsToBreakeven =
      some ((computeScenario defaultState .base).investmentAnnual /
        (computeScenario defaultState .base).savingsAnnual * JSNum.fin 12) :=
  ⟨savingsAnnual_defaultState_base_pos, investment_defaultState_pos,
    ((breakeven_null_iff defaultState .base).2.2.2 savingsAnnual_defaultState_base_pos
      investment_defaultState_pos).1⟩

/-- C8: permuting the health-event list leaves the entire `ScenarioResult`
unchanged: the health savings is a sum over the list, and no other part of
the computation reads `healthEvents`. -/
theorem computeScenario_perm_invariant (state : CalculatorState)
    (l : List HealthEventInput) (sc : EfficacyScenario)
    (hp : state.healthEvents.Perm l) :
    computeScenario { state with healthEvents := l } sc = computeScenario state sc := by
  apply computeScenario_healthEvents_congr
  simp only [healthSavings]
  rw [healthSavings_foldl, healthSavings_foldl,
    ← (hp.map fun ev => ev.count * ev.costPerEvent).sum_eq]

/-- C8 (witness): swapping the two rows of a two-row health-event table
produces an identical result at the default economics. -/
theorem computeScenario_perm_invariant_witness :
    stateTwoEvents.healthEvents.Perm [healthEventB, healthEventA] ∧
    computeScenario { stateTwoEvents with healthEvents := [healthEventB, healthEventA] } .base =
      computeScenario stateTwoEvents .base := by
  have hp : stateTwoEvents.healthEvents.Perm [healthEventB, healthEventA] :=
    List.Perm.swap healthEventB healthEventA []
  exact ⟨hp, computeScenario_perm_invariant stateTwoEvents [healthEventB, healthEventA] .base hp⟩

/-- C9 (counterexample): at the default inputs with `milkingCows = 0`
(which satisfies `milkingCows ≥ 0`), the breakeven fields are null although
`savingsAnnual ≤ 0` is false (it is `NaN`), so "null exactly when
savingsAnnual ≤ 0" fails. -/
theorem breakeven_condition_nan_gap :
    (0:ℚ) ≤ stateZeroCows.milkingCows ∧
    (computeScenario stateZeroCows .optimistic).monthsToBreakeven = none ∧
    JSNum.jsLe (computeScenario stateZeroCows .optimistic).savingsAnnual
      (JSNum.fin 0) = false := by
  have hs := savingsAnnual_zero_cows stateZeroCows .optimistic rfl
  refine ⟨by norm_num [stateZeroCows, defaultState], ?_, ?_⟩
  · rw [computeScenario_monthsToBreakeven, hs]
    simp
  · rw [hs]
    simp

/-- C9 (amended): `investmentAnnual = 4.5 * milkingCows + 120 + 15840`
exactly for every input and scenario; when `milkingCows ≥ 0` this is at
least 15960, so the `roiRatio` else-branch is unreachable and `roiRatio =
savingsAnnual / investmentAnnual` (JS division); the breakeven fields are
then null exactly when `savingsAnnual > 0` fails under JS comparison (for
finite savings that is `savingsAnnual ≤ 0`; for `NaN` savings the fields
are also null). -/
theorem investment_positive_roi_formula (state : CalculatorState) (sc : EfficacyScenario) :
    (computeScenario state sc).investmentAnnual =
      JSNum.fin (4.5 * state.milkingCows + 120 + 15840) ∧
    (0 ≤ state.milkingCows →
      15960 ≤ 4.5 * state.milkingCows + 120 + 15840 ∧
      (computeScenario state sc).roiRatio =
        (computeScenario state sc).savingsAnnual /
          (computeScenario state sc).investmentAnnual ∧
      ((computeScenario state sc).monthsToBreakeven = none ↔
        JSNum.jsGt (computeScenario state sc).savingsAnnual (JSNum.fin 0) = false) ∧
      ((computeScenario state sc).daysToBreakeven = none ↔
        JSNum.jsGt (computeScenario state sc).savingsAnnual (JSNum.fin 0) = false)) := by
  have hi : (computeScenario state sc).investmentAnnual =
      JSNum.fin (4.5 * state.milkingCows + 120 + 15840) := by
    rw [computeScenario_investmentAnnual, investmentAnnual_eq]
  refine ⟨hi, fun hm => ?_⟩
  have hb : (15960:ℚ) ≤ 4.5 * state.milkingCows + 120 + 15840 := by nlinarith
  have hipos : JSNum.jsGt (investmentAnnual state) (JSNum.fin 0) = true := by
    rw [investmentAnnual_eq]
    simp only [JSNum.jsGt_fin_fin, decide_eq_true_eq]
    linarith
  refine ⟨hb, ?_, ?_, ?_⟩
  · rw [computeScenario_roiRatio, hipos]
    simp [computeScenario_investmentAnnual]
  · rw [computeScenario_monthsToBreakeven, hipos]
    cases h : JSNum.jsGt (computeScenario state sc).savingsAnnual (JSNum.fin 0) <;> simp [h]
  · rw [computeScenario_daysToBreakeven, hipos]
    cases h : JSNum.jsGt (computeScenario state sc).savingsAnnual (JSNum.fin 0) <;> simp [h]

/-- C9 (witness): the amended statement instantiated at the default inputs. -/
theorem investment_positive_roi_formula_witness :
    (0:ℚ) ≤ defaultState.milkingCows ∧
    (computeScenario defaultState .base).roiRatio =
      (computeScenario defaultState .base).savingsAnnual /
        (computeScenario defaultState .base).investmentAnnual :=
  ⟨by norm_num [defaultState],
    ((investment_positive_roi_formula defaultState .base).2
      (by norm_num [defaultState])).2.1⟩

/-- C10: appending a health event whose count or cost is zero leaves every
field of the result unchanged: such an event contributes `0` to the
health-savings sum. -/
theorem zero_health_event_neutral (state : CalculatorState) (ev : HealthEventInput)
    (sc : EfficacyScenario) (h : ev.count = 0 ∨ ev.costPerEvent = 0) :
    computeScenario { state with healthEvents := state.healthEvents ++ [ev] } sc =
      computeScenario state sc := by
  apply computeScenario_healthEvents_congr
  simp only [healthSavings]
  rw [healthSavings_foldl, healthSavings_foldl]
  congr 1
  simp only [List.map_append, List.sum_append, List.map_cons, List.map_nil, List.sum_cons,
    List.sum_nil]
  rcases h with h | h <;> simp [h]

/-- C10 (witness): appending a zero-count event to the default table
changes nothing. -/
theorem zero_health_event_neutral_witness :
    (zeroCountEvent.count = 0 ∨ zeroCountEvent.costPerEvent = 0) ∧
    computeScenario
        { defaultState with healthEvents := defaultState.healthEvents ++ [zeroCountEvent] }
        .base =
      computeScenario defaultState .base :=
  ⟨Or.inl rfl, zero_health_event_neutral defaultState zeroCountEvent .base (Or.inl rfl)⟩
